import Mathlib

/-!
Verification development for the local analysis engine of the devassist
repository: the security rule engine (`localSecurityAnalysis`), the eco rule
engine (`localEcoAnalysis`), the embedding generator (`generateTextEmbedding`)
and the cosine-similarity vector store (`VectorStore.search`,
`VectorStore.calculateCosineSimilarity`).

Text is modelled as `List Char` (ASCII; the repository lowercases with
JavaScript `toLowerCase`, modelled here by an ASCII `lowerAscii`).  The
JavaScript regular expressions used by the engine are alternations of string
literals plus a handful of simple constructs (`\w`, `\d`, `\s*`, `[^)]*`,
`.?`, `{8,}`); they are modelled by a small explicit pattern matcher
(`Pat` / `matchSeq`).  JavaScript numbers are modelled exactly: the eco score
arithmetic is integral (`ℤ`), the confidence arithmetic is rational (`ℚ`), and
the embedding / cosine pipeline is real (`ℝ`, with `Real.sqrt` for
`Math.sqrt`).
-/

namespace DevAssist

/-! ## Character classes (ASCII models of the JS regex classes) -/

/-- ASCII model of JavaScript `String.prototype.toLowerCase`. -/
def lowerAscii (c : Char) : Char :=
  if 'A' ≤ c ∧ c ≤ 'Z' then Char.ofNat (c.toNat + 32) else c

/-- Lowercase a text, modelling `request.toLowerCase()`. -/
def lowerStr (s : List Char) : List Char := s.map lowerAscii

/-- ASCII model of the regex class `\s`. -/
def isWsChar (c : Char) : Bool :=
  c = ' ' ∨ c = '\t' ∨ c = '\n' ∨ c = '\r' ∨ c = Char.ofNat 11 ∨ c = Char.ofNat 12

/-- The regex class `\d` = `[0-9]`. -/
def isDigitChar (c : Char) : Bool := '0' ≤ c ∧ c ≤ '9'

/-- The regex class `[A-Z]`. -/
def isUpperChar (c : Char) : Bool := 'A' ≤ c ∧ c ≤ 'Z'

/-- The regex class `[a-z]`. -/
def isLowerChar (c : Char) : Bool := 'a' ≤ c ∧ c ≤ 'z'

/-- The regex class `\w` = `[A-Za-z0-9_]`. -/
def isWordChar (c : Char) : Bool :=
  isUpperChar c ∨ isLowerChar c ∨ isDigitChar c ∨ c = '_'

/-- The class `('|")` used by the permissive-CORS regex. -/
def isJsQuote (c : Char) : Bool := c = Char.ofNat 39 ∨ c = Char.ofNat 34

/-- The quote class of the hardcoded-credentials regex: `'`, `"` or backquote. -/
def isAnyQuote (c : Char) : Bool :=
  c = Char.ofNat 39 ∨ c = Char.ofNat 34 ∨ c = Char.ofNat 96

/-- The class `[a-z0-9!@#$%^&*()]` of the hardcoded-credentials regex
(the `i` flag is irrelevant: the text it is run on is already lowercased). -/
def isCredChar (c : Char) : Bool :=
  isLowerChar c ∨ isDigitChar c ∨ c = '!' ∨ c = '@' ∨ c = '#' ∨ c = '$' ∨
  c = '%' ∨ c = '^' ∨ c = '&' ∨ c = '*' ∨ c = '(' ∨ c = ')'

/-- The regex `.` (any character except a newline). -/
def notNewline (c : Char) : Bool := c ≠ '\n'

/-! ## A small pattern matcher

The engine's regexes are sequences of: string literals, one mandatory class
character (`\w`, `\d`, …), an optional class character (`.?`), and a Kleene
star over a class (`\s*`, `[^)]*`, `\d+` = one + star, `{8,}` = eight + star).
`matchSeq pats s` decides whether the sequence matches a prefix of `s`
(with backtracking, like the JS engine); `containsPat` whether it matches
anywhere, modelling `RegExp.prototype.test`. -/

inductive Pat where
  | lit  (cs : List Char)
  | one  (p : Char → Bool)
  | opt  (p : Char → Bool)
  | star (p : Char → Bool)

/-- Fuel-based matcher (fuel keeps the recursion structural, so that concrete
evaluations reduce in the kernel; `matchSeq` supplies enough fuel). -/
def matchSeqF : Nat → List Pat → List Char → Bool
  | 0, _, _ => false
  | _ + 1, [], _ => true
  | n + 1, Pat.lit cs :: ps, s =>
    cs.isPrefixOf s && matchSeqF n ps (s.drop cs.length)
  | _ + 1, Pat.one _ :: _, [] => false
  | n + 1, Pat.one p :: ps, c :: s => p c && matchSeqF n ps s
  | n + 1, Pat.opt _ :: ps, [] => matchSeqF n ps []
  | n + 1, Pat.opt p :: ps, c :: s =>
    matchSeqF n ps (c :: s) || (p c && matchSeqF n ps s)
  | n + 1, Pat.star _ :: ps, [] => matchSeqF n ps []
  | n + 1, Pat.star p :: ps, c :: s =>
    matchSeqF n ps (c :: s) || (p c && matchSeqF n (Pat.star p :: ps) s)

/-- Each `matchSeqF` step lowers `ps.length + s.length`, so this fuel always
suffices. -/
def matchSeq (ps : List Pat) (s : List Char) : Bool :=
  matchSeqF (ps.length + s.length + 1) ps s

/-- Does the pattern sequence match starting at any position of `s`?
(Model of `RegExp.prototype.test` for the patterns above.) -/
def containsPat (ps : List Pat) : List Char → Bool
  | [] => matchSeq ps []
  | c :: s => matchSeq ps (c :: s) || containsPat ps s

/-- Substring test, modelling `String.prototype.includes`. -/
def containsStr (s : List Char) (pat : List Char) : Bool :=
  containsPat [Pat.lit pat] s

/-- `pat` as a literal `Pat` from a string literal. -/
def litp (s : String) : Pat := Pat.lit s.data

/-- Any of the given literal substrings occurs in `s` (model of an alternation
of literals, or of a loop of `includes` tests). -/
def anyIn (s : List Char) (pats : List String) : Bool :=
  pats.any fun p => containsStr s p.data

/-- `a`, then an optional non-newline character, then `b` (the regex
`a.?b`, as in `credit.?card`). -/
def optMid (s : List Char) (a b : String) : Bool :=
  containsPat [litp a, Pat.opt notNewline, litp b] s

/-- Split a character list at every occurrence of a separator satisfying `p`
(model of `String.prototype.split` on a character class). -/
def splitOnP (p : Char → Bool) : List Char → List (List Char)
  | [] => [[]]
  | c :: s =>
    let rest := splitOnP p s
    if p c then [] :: rest
    else
      match rest with
      | [] => [[c]]
      | r :: rs => (c :: r) :: rs

/-- `(A).*?(B)` on one newline-free line: some match of `A` ends no later than
some match of `B` begins.  Equivalently there is a split point with `A`
matching inside the left part and `B` inside the right part. -/
def orderedCooccur (pa pb : List Char → Bool) (line : List Char) : Bool :=
  (List.range (line.length + 1)).any fun i =>
    pa (line.take i) && pb (line.drop i)

/-- Number of characters satisfying `p` (model of `(text.match(/…/g) || []).length`
for a single-character class). -/
def countP (p : Char → Bool) (s : List Char) : Nat := (s.filter p).length

/-- The words of a text: maximal runs of non-whitespace characters
(model of `text.split(/\s+/).filter(w => w.length > 0)`). -/
def wordsOf (s : List Char) : List (List Char) :=
  (splitOnP isWsChar s).filter fun w => w.length ≠ 0

/-- Number of maximal whitespace runs (model of `(text.match(/\s+/g) || []).length`). -/
def wsRunCount : List Char → Nat
  | [] => 0
  | c :: s => wsRunCountIn (isWsChar c) s + (if isWsChar c then 1 else 0)
where
  /-- Helper: count the whitespace runs of the tail, `inRun` saying whether we
  are currently inside a whitespace run. -/
  wsRunCountIn : Bool → List Char → Nat
    | _, [] => 0
    | inRun, c :: s =>
      if isWsChar c then wsRunCountIn true s + (if inRun then 0 else 1)
      else wsRunCountIn false s

/-! ## Risk levels

`'Low' | 'Medium' | 'High' | 'Critical'`, with the order Low < Medium < High
< Critical expressed through `riskRank`. -/

inductive Risk where
  | low | medium | high | critical
  deriving DecidableEq

/-- Numeric rank realising the order Low < Medium < High < Critical. -/
def riskRank : Risk → Nat
  | .low => 0
  | .medium => 1
  | .high => 2
  | .critical => 3

/-- The riskLevel update `riskLevel === 'Low' ? 'Medium' : riskLevel`. -/
def bumpMed (r : Risk) : Risk := if r = .low then .medium else r

/-- Maximum (by rank) of a list of risk levels, starting from the implicit
`Low` floor. -/
def riskMaxOf (l : List Risk) : Risk :=
  l.foldl (fun a b => if riskRank a ≤ riskRank b then b else a) .low

/-! ## Language detection (`localSecurityAnalysis` lines 517–541 and
`localEcoAnalysis` lines 1157–1181)

Both engines detect a language from the lowercased text.  The rust / java /
python / cpp predicates are textually identical in the two engines and are
therefore shared; the javascript predicates differ (the eco engine uses the
regex `console\.log|function\s*\(|const\s+|let\s+|var\s+` where the security
engine uses four `includes` tests), and the two engines test javascript and
python in a different order. -/

/-- `fn main` together with `impl`/`struct`/`use std` (both engines). -/
def gRustLang (lc : List Char) : Bool :=
  containsStr lc "fn main".data &&
    (containsStr lc "impl".data || containsStr lc "struct".data ||
      containsStr lc "use std".data)

/-- `public static void main` (both engines). -/
def gJavaLang (lc : List Char) : Bool :=
  containsStr lc "public static void main".data

/-- `def ` together with `import `/`class ` (both engines). -/
def gPythonLang (lc : List Char) : Bool :=
  containsStr lc "def ".data &&
    (containsStr lc "import ".data || containsStr lc "class ".data)

/-- `#include` (both engines). -/
def gCppLang (lc : List Char) : Bool := containsStr lc "#include".data

/-- The security engine's javascript test: four `includes` checks. -/
def gJsLangSec (lc : List Char) : Bool :=
  containsStr lc "console.log".data || containsStr lc "function(".data ||
    containsStr lc "const ".data || containsStr lc "let ".data

/-- The eco engine's javascript test:
`console\.log|function\s*\(|const\s+|let\s+|var\s+`. -/
def gJsLangEco (lc : List Char) : Bool :=
  containsStr lc "console.log".data ||
    containsPat [litp "function", Pat.star isWsChar, litp "("] lc ||
    containsPat [litp "const", Pat.one isWsChar] lc ||
    containsPat [litp "let", Pat.one isWsChar] lc ||
    containsPat [litp "var", Pat.one isWsChar] lc

/-- Language detection of `localSecurityAnalysis` (first match wins; order:
rust, java, python, javascript, c/c++). -/
def secDetectLanguage (lc : List Char) : String :=
  if gRustLang lc then "rust"
  else if gJavaLang lc then "java"
  else if gPythonLang lc then "python"
  else if gJsLangSec lc then "javascript"
  else if gCppLang lc then "c/c++"
  else "unknown"

/-- Language detection of `localEcoAnalysis` (first match wins; order:
Rust, Java, JavaScript/TypeScript, Python, C/C++). -/
def ecoDetectLanguage (lc : List Char) : String :=
  if gRustLang lc then "Rust"
  else if gJavaLang lc then "Java"
  else if gJsLangEco lc then "JavaScript/TypeScript"
  else if gPythonLang lc then "Python"
  else if gCppLang lc then "C/C++"
  else "unknown"

/-- The closed language enumeration of the specification, as canonical tags. -/
def languageTagEnum : List String :=
  ["rust", "java", "python", "javascript", "cpp", "unknown"]

/-- Canonical tag of a security-engine language name. -/
def secTagCanon (s : String) : String := if s = "c/c++" then "cpp" else s

/-- Canonical tag of an eco-engine language name. -/
def ecoTagCanon (s : String) : String :=
  if s = "Rust" then "rust"
  else if s = "Java" then "java"
  else if s = "JavaScript/TypeScript" then "javascript"
  else if s = "Python" then "python"
  else if s = "C/C++" then "cpp"
  else s

/-! ## The security rule engine (`localSecurityAnalysis`, lines 509–1135)

The engine runs 26 detector blocks in source order; each block is guarded by
pattern-match results of the input text, appends threats/recommendations and
updates the risk level.  `SecFlags` records the pattern-match results, one
field per distinct test of the source; `secFlagsOfText` computes them from
the text. -/

structure SecFlags where
  language : String
  textLength : Nat
  hasApiEndpoints : Bool
  hasCorsConfig : Bool
  permissiveCors : Bool
  hasAuth : Bool
  hasValidation : Bool
  hasUserInput : Bool
  hasSensitiveData : Bool
  hasEncryption : Bool
  hasLogging : Bool
  sensitiveLoggingRisk : Bool
  hasErrorHandling : Bool
  sqlKeyword : Bool
  rawInputMarker : Bool
  xssSink : Bool
  httpMention : Bool
  expressMention : Bool
  hasSecureHeaders : Bool
  credKeyword : Bool
  credQuoted : Bool
  idMention : Bool
  byIdLookup : Bool
  cmdExec : Bool
  cmdInputMarker : Bool
  rustMemBlock : Bool
  rustRawPtr : Bool
  rustFfi : Bool
  rustUnwrap : Bool
  jsEvalDyn : Bool
  jsDocCookie : Bool
  jsInnerHtml : Bool
  jsLocalStorage : Bool
  jsPostMessage : Bool
  originMention : Bool
  pyPickle : Bool
  pyDynImport : Bool
  pyWebFramework : Bool
  csrfMention : Bool
  debugMention : Bool
  trueMention : Bool
  deriving DecidableEq

/-- Guard of detector block `i` (source order; see `secOrder`).  Block 2 keeps
the source's doubled `hasApiEndpoints` test (`if (!hasAuth && hasApiEndpoints)`
nested inside `if (hasApiEndpoints)`). -/
def secGuard : Nat → SecFlags → Bool
  | 0, f => f.hasApiEndpoints && !f.hasCorsConfig
  | 1, f => f.hasApiEndpoints && f.permissiveCors
  | 2, f => f.hasApiEndpoints && (!f.hasAuth && f.hasApiEndpoints)
  | 3, f => f.hasUserInput && !f.hasValidation
  | 4, f => f.hasSensitiveData && !f.hasEncryption
  | 5, f => f.hasSensitiveData && f.hasLogging && f.sensitiveLoggingRisk
  | 6, f => f.hasApiEndpoints && !f.hasErrorHandling
  | 7, f => f.sqlKeyword && f.rawInputMarker
  | 8, f => f.xssSink && f.rawInputMarker
  | 9, f => (f.hasApiEndpoints || f.httpMention || f.expressMention) &&
      !f.hasSecureHeaders
  | 10, f => f.credKeyword && f.credQuoted
  | 11, f => f.idMention && f.byIdLookup
  | 12, f => f.cmdExec && f.cmdInputMarker
  | 13, f => f.language = "rust" && f.rustMemBlock
  | 14, f => f.language = "rust" && f.rustRawPtr
  | 15, f => f.language = "rust" && f.rustFfi
  | 16, f => f.language = "rust" && f.rustUnwrap
  | 17, f => f.language = "javascript" && f.jsEvalDyn
  | 18, f => f.language = "javascript" && f.jsDocCookie
  | 19, f => f.language = "javascript" && f.jsInnerHtml
  | 20, f => f.language = "javascript" && f.jsLocalStorage
  | 21, f => f.language = "javascript" && f.jsPostMessage
  | 22, f => f.language = "python" && f.pyPickle
  | 23, f => f.language = "python" && f.pyDynImport
  | 24, f => f.language = "python" && f.pyWebFramework && !f.csrfMention
  | 25, f => f.language = "python" && f.pyWebFramework && f.debugMention &&
      f.trueMention
  | _, _ => false

/-- Risk-level update of block `i`, applied when its guard holds. -/
def secEffect : Nat → Risk → Risk
  | 0, r => bumpMed r
  | 1, r => bumpMed r
  | 2, r => if r = .low then .medium else .high
  | 3, r => bumpMed r
  | 4, r => if r = .low then .high else .critical
  | 5, r => bumpMed r
  | 6, r => bumpMed r
  | 7, _ => .high
  | 8, r => if r = .high then .critical else .high
  | 9, r => bumpMed r
  | 10, r => bumpMed r
  | 11, r => bumpMed r
  | 12, _ => .critical
  | 13, r => if r = .low then .high else .critical
  | 14, r => bumpMed r
  | 15, r => bumpMed r
  | 16, r => bumpMed r
  | 17, r => if r = .low then .high else r
  | 18, r => bumpMed r
  | 19, r => bumpMed r
  | 20, r => bumpMed r
  | 21, r => bumpMed r
  | 22, _ => .high
  | 23, r => bumpMed r
  | 24, r => bumpMed r
  | 25, r => bumpMed r
  | _, r => r

def msgSqlThreat : String := "Potential SQL injection vulnerability detected"
def msgXssThreat : String :=
  "Potential Cross-site Scripting (XSS) vulnerability detected"
def msgCredThreat : String :=
  "Potential hardcoded credentials or secrets detected"
def msgIdorThreat : String :=
  "Potential Insecure Direct Object Reference (IDOR) vulnerability"
def msgCmdThreat : String := "Potential command injection vulnerability detected"
def msgRustMemThreat : String :=
  "Use of unsafe Rust code detected - potential memory safety issues"
def msgRustPtrThreat : String :=
  "Use of raw pointers in Rust - potential memory safety issues"
def msgRustFfiThreat : String :=
  "Foreign Function Interface (FFI) usage detected - potential safety issues"
def msgRustUnwrapThreat : String :=
  "Unchecked result/option usage with unwrap() or panic! - potential runtime failures"
def msgNoThreats : String := "No obvious security vulnerabilities detected"
def msgGenericRec : String :=
  "Follow security best practices for your framework/language"

/-- Threats pushed by block `i` when its guard holds.  Blocks 20 and 21 push
conditionally inside the fired branch (`hasSensitiveData`, absence of
`origin`), exactly as the source's frontend-pattern loop does. -/
def secThreatsAdded : Nat → SecFlags → List String
  | 0, _ => ["API endpoints detected without CORS protection"]
  | 1, _ => ["Overly permissive CORS configuration (Access-Control-Allow-Origin: *)"]
  | 2, _ => ["API endpoints may lack proper authentication"]
  | 3, _ => ["User input processing without obvious validation/sanitization"]
  | 4, _ => ["Handling sensitive data without obvious encryption/protection"]
  | 5, _ => ["Potential logging of sensitive information"]
  | 6, _ => ["API endpoints without proper error handling detected"]
  | 7, _ => [msgSqlThreat]
  | 8, _ => [msgXssThreat]
  | 9, _ => ["Security headers may be missing from HTTP responses"]
  | 10, _ => [msgCredThreat]
  | 11, _ => [msgIdorThreat]
  | 12, _ => [msgCmdThreat]
  | 13, _ => [msgRustMemThreat]
  | 14, _ => [msgRustPtrThreat]
  | 15, _ => [msgRustFfiThreat]
  | 16, _ => [msgRustUnwrapThreat]
  | 17, _ => ["Use of eval() or dynamic function creation - security risk"]
  | 18, _ => ["Direct cookie manipulation - potential cookie security issues"]
  | 19, _ => ["Using innerHTML without proper sanitization - potential XSS risk"]
  | 20, f => if f.hasSensitiveData then
      ["Potential storage of sensitive data in localStorage/sessionStorage"]
    else []
  | 21, f => if !f.originMention then
      ["Using postMessage without origin validation"]
    else []
  | 22, _ => ["Use of unsafe deserialization (pickle/marshal) - security risk"]
  | 23, _ => ["Dynamic imports - potential code injection vector"]
  | 24, _ => ["Web framework detected without obvious CSRF protection"]
  | 25, _ => ["Debug mode may be enabled in a web application"]
  | _, _ => []

/-- Recommendations pushed by block `i` when its guard holds (blocks 7, 8, 10,
11, 12, 13–18, 22, 23 push their recommendation later, in the
threat-conditioned phase of lines 1033–1115). -/
def secRecsAdded : Nat → SecFlags → List String
  | 0, _ => ["Implement CORS policy to restrict API access to trusted domains"]
  | 1, _ => ["Restrict CORS to specific trusted origins rather than using wildcard *"]
  | 2, _ => ["Implement authentication for all API endpoints that access sensitive data"]
  | 3, _ => ["Implement input validation and sanitization for all user-provided data"]
  | 4, _ => ["Implement encryption for sensitive data both at rest and in transit"]
  | 5, _ => ["Ensure sensitive data is redacted or excluded from logs"]
  | 6, _ => ["Implement proper error handling to avoid exposing sensitive stack traces"]
  | 9, _ => ["Implement security headers (CSP, HSTS, etc.) or use middleware like helmet.js"]
  | 19, _ => ["Use textContent instead of innerHTML or sanitize HTML content"]
  | 20, f => if f.hasSensitiveData then
      ["Avoid storing sensitive data in browser storage mechanisms"]
    else []
  | 21, f => if !f.originMention then
      ["Always validate origin when receiving postMessage data"]
    else []
  | 24, _ => ["Ensure CSRF protection is enabled in your web framework"]
  | 25, _ => ["Disable debug mode in production environments"]
  | _, _ => []

/-- Mutable state threaded through the detector blocks: the `threats` and
`recommendations` arrays and the `riskLevel` variable. -/
structure SecState where
  threats : List String
  recs : List String
  risk : Risk
  deriving DecidableEq

/-- One detector block: if its guard holds, push its threats and
recommendations and update the risk level. -/
def secDetector (i : Nat) (f : SecFlags) (st : SecState) : SecState :=
  if secGuard i f then
    { threats := st.threats ++ secThreatsAdded i f
      recs := st.recs ++ secRecsAdded i f
      risk := secEffect i st.risk }
  else st

/-- Risk-level component of one detector block. -/
def riskStep (i : Nat) (f : SecFlags) (r : Risk) : Risk :=
  if secGuard i f then secEffect i r else r

/-- The source order of the 26 detector blocks. -/
def secOrder : List Nat := List.range 26

/-- Final risk level after running the detector blocks in a given order. -/
def riskRunOrder (order : List Nat) (f : SecFlags) (r : Risk) : Risk :=
  order.foldl (fun r i => riskStep i f r) r

/-- The successive values of the `riskLevel` variable while the detector
blocks run in source order (starting at the initial `Low`). -/
def riskTrace (f : SecFlags) : List Risk :=
  secOrder.scanl (fun r i => riskStep i f r) .low

/-- Confidence heuristic (lines 543–552): base 0.6, set to 0.7 when a language
was detected, −0.2 for short inputs else +0.1 for long inputs. -/
def secConfidence (f : SecFlags) : ℚ :=
  let c : ℚ := if f.language ≠ "unknown" then 7/10 else 3/5
  if f.textLength < 100 then c - 1/5
  else if f.textLength > 1000 then c + 1/10
  else c

structure SecReport where
  riskLevel : Risk
  threats : List String
  recommendations : List String
  confidenceLevel : ℚ
  deriving DecidableEq

/-- `localSecurityAnalysis` over the pattern-match results: run the detector
blocks in source order, append the threat-conditioned recommendations
(lines 1033–1115), then the fallbacks (lines 1117–1127). -/
def localSecurityAnalysis (f : SecFlags) : SecReport :=
  let st := secOrder.foldl (fun st i => secDetector i f st) ⟨[], [], .low⟩
  let recs := st.recs
    ++ (if st.threats.contains msgSqlThreat then
        ["Use parameterized queries or an ORM instead of string concatenation"] else [])
    ++ (if st.threats.contains msgXssThreat then
        ["Use content security policy (CSP) and escape output before rendering"] else [])
    ++ (if st.threats.contains msgCredThreat then
        ["Store sensitive information in environment variables or a secure vault"] else [])
    ++ (if st.threats.contains msgIdorThreat then
        ["Implement proper access control checks before serving data"] else [])
    ++ (if st.threats.contains msgCmdThreat then
        ["Avoid using exec/eval with user input; use allowlists for commands if necessary"] else [])
    ++ (if st.threats.contains msgRustMemThreat then
        ["Minimize unsafe blocks and ensure they are properly documented and reviewed"] else [])
    ++ (if st.threats.contains msgRustPtrThreat then
        ["Prefer safe abstractions like references and smart pointers over raw pointers"] else [])
    ++ (if st.threats.contains msgRustFfiThreat then
        ["Ensure all FFI code is carefully reviewed and properly isolated"] else [])
    ++ (if st.threats.contains msgRustUnwrapThreat then
        ["Replace .unwrap() with proper error handling using match, if let, or ?"] else [])
  let threats := if st.threats.isEmpty then st.threats ++ [msgNoThreats] else st.threats
  let recs := if recs.isEmpty then recs ++ [msgGenericRec] else recs
  ⟨st.risk, threats, recs, secConfidence f⟩

/-- The sensitive-data alternation (two regexes, lines 673–676), as a reusable
test: it is also one side of the constructed sensitive-logging regex. -/
def sensitivePatTest (s : List Char) : Bool :=
  containsStr s "password".data || optMid s "credit" "card" ||
    containsStr s "ssn".data || optMid s "social" "security" ||
    containsStr s "passport".data || containsStr s "address".data ||
    containsStr s "email".data || containsStr s "phone".data ||
    optMid s "personal" "data" || containsStr s "pii".data ||
    containsStr s "kyc".data || containsStr s "medical".data ||
    containsStr s "health".data || containsStr s "financial".data

/-- The logging alternation (line 710). -/
def loggingPatTest (s : List Char) : Bool :=
  anyIn s ["console.log", "print", "logger", "debug", "logging"]

/-- The encryption alternation (lines 686–689); `sha\d+` is `sha` followed by
a digit. -/
def encryptionPatTest (s : List Char) : Bool :=
  anyIn s ["encrypt", "encryption", "cipher", "hash", "bcrypt", "scrypt",
    "pbkdf2", "aes", "rsa", "crypto", "ssl", "tls"] ||
    containsPat [litp "sha", Pat.one isDigitChar] s

/-- The API-endpoint alternation (lines 555–562), tested case-sensitively on
the raw text. -/
def apiEndpointTest (r : List Char) : Bool :=
  containsPat [litp "api/", Pat.one isWordChar] r ||
    containsPat [litp "/v", Pat.one isDigitChar, Pat.star isDigitChar,
      litp "/", Pat.one isWordChar] r ||
    anyIn r ["@route", "@api", "@endpoint"] ||
    anyIn r ["router.get", "router.post", "router.put", "router.delete",
      "router.patch"] ||
    anyIn r ["app.get", "app.post", "app.put", "app.delete", "app.patch"] ||
    anyIn r ["@get", "@post", "@put", "@delete", "@patch"]

/-- Pattern-match results of a raw input text, one field per test of
`localSecurityAnalysis`.  `lc` is the lowercased text; `/i`-flagged regexes
of lowercase-literal alternations are evaluated on `lc`. -/
def secFlagsOfText (r : List Char) : SecFlags :=
  let lc := lowerStr r
  { language := secDetectLanguage lc
    textLength := r.length
    hasApiEndpoints := apiEndpointTest r
    hasCorsConfig := anyIn lc ["cors", "access-control-allow-origin", "origin:"]
    permissiveCors :=
      containsPat [Pat.one isJsQuote, litp "*", Pat.one isJsQuote] r &&
        containsStr lc "access-control-allow-origin".data
    hasAuth := anyIn lc ["auth", "authenticate", "login", "token", "verify",
      "session", "jwt", "oauth", "passport", "bearer", "basic auth"]
    hasValidation := anyIn lc ["validate", "validation", "sanitize",
      "sanitization", "escape", "schema", "joi", "yup", "zod", "validator",
      "isvalid"]
    hasUserInput := anyIn lc ["req.body", "req.params", "req.query",
      "request.", "input", "form data", "formdata", "parseform",
      "getparameter", "getattribute", "getelement", ".val()"]
    hasSensitiveData := sensitivePatTest lc
    hasEncryption := encryptionPatTest lc
    hasLogging := loggingPatTest lc
    sensitiveLoggingRisk :=
      (splitOnP (· = '\n') lc).any fun line =>
        orderedCooccur sensitivePatTest loggingPatTest line ||
          orderedCooccur loggingPatTest sensitivePatTest line
    hasErrorHandling :=
      containsPat [litp "try", Pat.star isWsChar, litp "\x7b"] lc ||
        containsPat [litp "catch", Pat.star isWsChar, litp "("] lc ||
        anyIn lc ["except:", "rescue", "finally", "throw", "raise"]
    sqlKeyword := anyIn lc ["select", "insert", "update", "delete"]
    rawInputMarker := anyIn lc ["$_", "req.param", "req.body", "req.query",
      "input", "user_input"]
    xssSink := anyIn lc ["innerhtml", "document.write"]
    httpMention := containsStr r "http".data
    expressMention := containsStr r "express".data
    hasSecureHeaders := anyIn lc ["content-security-policy", "csp",
      "strict-transport-security", "hsts", "x-content-type-options",
      "x-frame-options", "x-xss-protection", "helmet"]
    credKeyword := anyIn lc ["password", "apikey", "secret", "token", "pwd",
      "auth"]
    credQuoted :=
      containsPat ([Pat.one isAnyQuote] ++
        List.replicate 8 (Pat.one isCredChar) ++
        [Pat.star isCredChar, Pat.one isAnyQuote]) lc
    idMention := containsStr lc "id".data
    byIdLookup := anyIn lc ["findbyid", "getbyid", "find_by_id", "get_by_id"]
    cmdExec := anyIn lc ["exec(", "spawn(", "system(", "eval(", "command(",
      "process::command", "shell(", "std::process"]
    cmdInputMarker := anyIn lc ["$_", "req.param", "req.body", "req.query",
      "args", "input", "user_input", "var", "param"]
    rustMemBlock := anyIn lc ["unsafe ", "unsafe\x7b"]
    rustRawPtr := anyIn lc ["*mut ", "*const "]
    rustFfi := anyIn lc ["extern \"c\"", "#[no_mangle]"]
    rustUnwrap := anyIn lc [".unwrap()", "panic!"]
    jsEvalDyn := anyIn lc ["eval(", "new function("]
    jsDocCookie := containsStr lc "document.cookie".data
    jsInnerHtml := anyIn lc ["innerhtml", "outerhtml"]
    jsLocalStorage := anyIn lc ["localstorage", "sessionstorage"]
    jsPostMessage := containsStr lc "postmessage".data
    originMention := containsStr lc "origin".data
    pyPickle := anyIn lc ["pickle.loads", "marshal.loads"]
    pyDynImport := anyIn lc ["__import__", "importlib"]
    pyWebFramework := anyIn lc ["django", "flask"]
    csrfMention := containsStr lc "csrf".data
    debugMention := containsStr lc "debug".data
    trueMention := containsStr lc "true".data }

/-- `localSecurityAnalysis` on a raw text. -/
def localSecurityAnalysisText (s : String) : SecReport :=
  localSecurityAnalysis (secFlagsOfText s.data)

/-- The riskLevel trace of `localSecurityAnalysis` on a raw text. -/
def riskTraceText (s : String) : List Risk := riskTrace (secFlagsOfText s.data)

/-- No detector block of the engine fires on these pattern-match results. -/
def secNoDetectorFires (f : SecFlags) : Bool :=
  secOrder.all fun i => !secGuard i f

/-- The blocks whose risk update is exactly `max(current, Medium)`
(`riskLevel === 'Low' ? 'Medium' : riskLevel`); the remaining blocks
(2, 4, 7, 8, 12, 13, 17, 22) escalate further or overwrite the level. -/
def secMedBumpBlocks : List Nat :=
  [0, 1, 3, 5, 6, 9, 10, 11, 14, 15, 16, 18, 19, 20, 21, 23, 24, 25]

/-! ## The eco rule engine (`localEcoAnalysis`, lines 1152–1666)

The engine detects a language, starts from a language-dependent base score
(an integer; all of its arithmetic is integral, modelled in `ℤ`), runs an
ordered list of deduction/bonus rules appending to `issues`/`suggestions`,
applies issue-count and size deductions, clamps to [35, 95], and finally adds
a +5 bonus when no issues were found.  `EcoFlags` records the pattern-match
results and counters the rules consume; every input text induces one such
record.  (Two possessive apostrophes of the original Rust suggestion strings
are elided.) -/

structure EcoFlags where
  language : String
  codeLength : Nat
  lineCountN : Nat
  redundancyCount : Nat
  duplicateFunctions : Nat
  hasAI : Bool
  aiEfficient : Bool
  localModelUsage : Bool
  remoteApiMarkers : Bool
  loopMatches : Nat
  nestedLoopCount : Nat
  recursionDetected : Bool
  plusQuoteCount : Nat
  cryptoOps : Bool
  mediaKeywords : Bool
  mediaProcessing : Bool
  domQueryAllIter : Bool
  domOperations : Nat
  reactOrState : Bool
  stateUpdates : Nat
  memoizationCount : Nat
  pyListAppendPattern : Bool
  pyThreading : Bool
  pyWhileTrue : Bool
  pyPandas : Bool
  pyIneffPandas : Bool
  javaStringPlusEq : Nat
  javaStringBuilder : Bool
  javaNewObjects : Nat
  javaCollections : Bool
  javaStreams : Bool
  javaForColon : Bool
  rustToString : Bool
  rustForWhile : Bool
  rustCloneCount : Nat
  rustUnsafeKw : Bool
  rustMutRef : Bool
  rustAsync : Bool
  rustAwait : Bool
  rustJoin : Bool
  rustAwaitCount : Nat
  cAllocations : Nat
  cFrees : Nat
  cMallocSizeof : Bool
  plusEqCount : Nat
  stringTypeWord : Bool
  deriving DecidableEq

/-- Initial eco score by language (lines 1186–1196). -/
def ecoBaseScore (language : String) : ℤ :=
  if language = "Rust" ∨ language = "C/C++" then 75
  else if language = "Python" then 65
  else if language = "JavaScript/TypeScript" then 68
  else if language = "Java" then 72
  else 70

/-- The `issues` array after the rule phase (everything up to line 1591),
in push order. -/
def ecoIssues1 (f : EcoFlags) : List String :=
  let rc := f.redundancyCount
  let dc := f.duplicateFunctions
  let nl := f.nestedLoopCount
  (if 0 < rc then
    [s!"Detected {rc} blocks of potentially redundant code"] else [])
  ++ (if 0 < dc then
    [s!"Found {dc} potentially duplicated function names"] else [])
  ++ (if f.hasAI && !f.aiEfficient then
    ["AI integration detected without obvious efficiency measures"] else [])
  ++ (if f.hasAI && !f.localModelUsage && f.remoteApiMarkers then
    ["Using remote AI APIs which can increase carbon footprint"] else [])
  ++ (if 0 < nl then
    [s!"{nl} nested loops detected (potential O(n²) or worse time complexity)"]
    else [])
  ++ (if f.recursionDetected then ["Recursive function calls detected"] else [])
  ++ (if 5 < f.plusQuoteCount then ["Multiple string concatenations found"] else [])
  ++ (if f.cryptoOps then
    ["Potentially energy-intensive cryptographic operations detected"] else [])
  ++ (if f.mediaKeywords && f.mediaProcessing then
    ["Media processing detected - potentially high energy consumption"] else [])
  ++ (if f.language = "JavaScript/TypeScript" then
        (if f.domQueryAllIter then
          ["DOM collection iteration pattern detected"] else [])
        ++ (if 10 < f.domOperations then
          ["High number of DOM operations detected"] else [])
        ++ (if f.reactOrState ∧ 5 < f.stateUpdates ∧ f.memoizationCount = 0 then
          ["Multiple state updates without memoization could cause excessive re-renders"]
          else [])
      else if f.language = "Python" then
        (if f.pyListAppendPattern then
          ["Inefficient list concatenation pattern detected"] else [])
        ++ (if f.pyThreading && f.pyWhileTrue then
          ["Potential CPU-bound thread blocking due to GIL"] else [])
        ++ (if f.pyPandas && f.pyIneffPandas then
          ["Inefficient pandas operations detected (iterative processing)"] else [])
      else if f.language = "Java" then
        (if 3 < f.javaStringPlusEq ∧ !f.javaStringBuilder then
          ["Inefficient String concatenation with += operator"] else [])
        ++ (if 20 < f.javaNewObjects then
          ["High rate of object creation detected"] else [])
      else if f.language = "Rust" then
        (if f.rustToString && f.rustForWhile then
          ["Repeated to_string() calls in loops"] else [])
        ++ (if 5 < f.rustCloneCount then
          ["Multiple clone() calls detected - potential memory inefficiency"] else [])
        ++ (if f.rustAsync && f.rustAwait && (!f.rustJoin && 3 < f.rustAwaitCount) then
          ["Multiple sequential await operations could be parallelized"] else [])
      else if f.language = "C/C++" then
        (if f.cFrees + 2 < f.cAllocations then
          ["Potential memory leak: more allocations than deallocations"] else [])
        ++ (if f.cMallocSizeof then ["Large buffer allocation detected"] else [])
      else [])
  ++ (if 5 < f.plusEqCount ∧ f.stringTypeWord then
    ["Inefficient string concatenation detected"] else [])

/-- The `suggestions` array after the rule phase, in push order. -/
def ecoSuggestions1 (f : EcoFlags) : List String :=
  (if 0 < f.redundancyCount then
    ["Extract repeated code blocks into reusable functions or components"] else [])
  ++ (if 0 < f.duplicateFunctions then
    ["Rename or consolidate functions with similar names and purposes"] else [])
  ++ (if f.hasAI then
        (if f.aiEfficient then
          ["Good: Found caching or batching for AI operations"]
        else
          ["Implement caching, batching, or throttling for AI API calls"])
        ++ (if f.localModelUsage then
          ["Good: Using local/edge AI models which can reduce network overhead"]
        else if f.remoteApiMarkers then
          ["Consider using smaller, local models for less intensive tasks"]
        else [])
      else [])
  ++ (if 0 < f.nestedLoopCount then
    ["Consider refactoring nested loops to reduce time complexity"] else [])
  ++ (if f.recursionDetected then
    ["Ensure recursive functions have proper termination conditions"] else [])
  ++ (if 5 < f.plusQuoteCount then
    ["Use string templating or builder pattern for multiple concatenations"] else [])
  ++ (if f.cryptoOps then
    ["Ensure cryptographic operations are used sparingly and efficiently"] else [])
  ++ (if f.mediaKeywords && f.mediaProcessing then
    ["Implement lazy loading and optimize media processing operations"] else [])
  ++ (if f.language = "JavaScript/TypeScript" then
        (if f.domQueryAllIter then
          ["Consider using more efficient DOM traversal methods"] else [])
        ++ (if 10 < f.domOperations then
          ["Batch DOM updates or consider using a virtual DOM approach"] else [])
        ++ (if f.reactOrState ∧ 5 < f.stateUpdates ∧ f.memoizationCount = 0 then
          ["Use React.memo, useMemo, or useCallback to prevent unnecessary re-renders"]
          else [])
      else if f.language = "Python" then
        (if f.pyListAppendPattern then
          ["Use list comprehensions or extend() instead of append in loops"] else [])
        ++ (if f.pyThreading && f.pyWhileTrue then
          ["Consider using multiprocessing instead of threading for CPU-bound tasks"]
          else [])
        ++ (if f.pyPandas && f.pyIneffPandas then
          ["Use vectorized operations instead of iterative row processing"] else [])
      else if f.language = "Java" then
        (if 3 < f.javaStringPlusEq ∧ !f.javaStringBuilder then
          ["Use StringBuilder for string concatenation in loops"] else [])
        ++ (if 20 < f.javaNewObjects then
          ["Consider object pooling or reuse patterns"] else [])
        ++ (if f.javaCollections && (!f.javaStreams && f.javaForColon) then
          ["Consider using Stream API for more efficient collection processing"]
          else [])
      else if f.language = "Rust" then
        (if f.rustToString && f.rustForWhile then
          ["Use string references (&str) instead of String allocations where possible"]
          else [])
        ++ (if 5 < f.rustCloneCount then
          ["Consider using references or move semantics to avoid cloning"] else [])
        ++ (if !f.rustUnsafeKw && f.rustMutRef then
          ["Good use of Rust memory safety features"] else [])
        ++ (if f.rustAsync && f.rustAwait && (!f.rustJoin && 3 < f.rustAwaitCount) then
          ["Use join! macro to run async operations concurrently"] else [])
      else if f.language = "C/C++" then
        (if f.cFrees + 2 < f.cAllocations then
          ["Ensure all allocated memory is properly freed"] else [])
        ++ (if f.cMallocSizeof then
          ["Consider using dynamic data structures or memory-mapped files for large data"]
          else [])
      else [])
  ++ (if 5 < f.plusEqCount ∧ f.stringTypeWord then
        if f.language = "JavaScript/TypeScript" then
          ["Use array.join() or template literals instead of string concatenation"]
        else if f.language = "Java" then
          ["Use StringBuilder instead of String concatenation in loops"]
        else if f.language = "Python" then
          ["Use \"\".join(list) instead of string += in loops"]
        else if f.language = "C/C++" then
          ["Use std::stringstream or std::string::append() instead of += operator"]
        else ["Use string builder pattern for better memory efficiency"]
      else [])

/-- `baseScore -= Math.min(15, redundancyCount * 3)` (line 1227). -/
def ecoRedundancyDeduct (f : EcoFlags) : ℤ :=
  if 0 < f.redundancyCount then min 15 ((f.redundancyCount : ℤ) * 3) else 0

/-- `baseScore -= duplicateFunctions.size * 2` (line 1261). -/
def ecoDupDeduct (f : EcoFlags) : ℤ :=
  if 0 < f.duplicateFunctions then (f.duplicateFunctions : ℤ) * 2 else 0

/-- The caching/batching sub-check of the AI rule: +5 or −8 (lines 1282–1293). -/
def ecoAiAdjust1 (f : EcoFlags) : ℤ :=
  if f.hasAI then (if f.aiEfficient then 5 else -8) else 0

/-- The local-versus-remote sub-check of the AI rule: +3 or −5 (lines 1296–1314). -/
def ecoAiAdjust2 (f : EcoFlags) : ℤ :=
  if f.hasAI then
    (if f.localModelUsage then 3 else if f.remoteApiMarkers then -5 else 0)
  else 0

/-- `baseScore -= 7` for cryptographic operations (line 1375). -/
def ecoCryptoDeduct (f : EcoFlags) : ℤ := if f.cryptoOps then 7 else 0

/-- `baseScore -= 6` for media processing (line 1391). -/
def ecoMediaDeduct (f : EcoFlags) : ℤ :=
  if f.mediaKeywords && f.mediaProcessing then 6 else 0

/-- The language-specific score adjustments (lines 1394–1563). -/
def ecoLangAdjust (f : EcoFlags) : ℤ :=
  (if f.language = "JavaScript/TypeScript" then
      - (if 10 < f.domOperations then 8 else 0)
      - (if f.reactOrState ∧ 5 < f.stateUpdates ∧ f.memoizationCount = 0 then 5 else 0)
    else if f.language = "Python" then
      - (if f.pyListAppendPattern then 5 else 0)
      - (if f.pyThreading && f.pyWhileTrue then 10 else 0)
      - (if f.pyPandas && f.pyIneffPandas then 7 else 0)
    else if f.language = "Java" then
      - (if 3 < f.javaStringPlusEq ∧ !f.javaStringBuilder then 7 else 0)
      - (if 20 < f.javaNewObjects then 5 else 0)
      - (if f.javaCollections && (!f.javaStreams && f.javaForColon) then 3 else 0)
    else if f.language = "Rust" then
      - (if f.rustToString && f.rustForWhile then 3 else 0)
      - (if 5 < f.rustCloneCount then 4 else 0)
      + (if !f.rustUnsafeKw && f.rustMutRef then 5 else 0)
      - (if f.rustAsync && f.rustAwait && (!f.rustJoin && 3 < f.rustAwaitCount) then 3 else 0)
    else if f.language = "C/C++" then
      - (if f.cFrees + 2 < f.cAllocations then 15 else 0)
      - (if f.cMallocSizeof then 5 else 0)
    else 0)

/-- The running score after the rule phase: the base score plus every rule
adjustment, in source order. -/
def ecoScore1 (f : EcoFlags) : ℤ :=
  ecoBaseScore f.language - ecoRedundancyDeduct f - ecoDupDeduct f
    + ecoAiAdjust1 f + ecoAiAdjust2 f - ecoCryptoDeduct f - ecoMediaDeduct f
    + ecoLangAdjust f

/-- The score after the issue-count, nested-loop and size deductions
(lines 1593–1602). -/
def ecoScore2 (f : EcoFlags) : ℤ :=
  ecoScore1 f
  - min 20 (((ecoIssues1 f).length : ℤ) * 5)
  - (if 0 < f.nestedLoopCount then min 15 ((f.nestedLoopCount : ℤ) * 5) else 0)
  - (if 5000 < f.codeLength then 3 else 0)
  - (if 10000 < f.codeLength then 5 else 0)

/-- Issues after the large-file rule (lines 1605–1611). -/
def ecoIssues2 (f : EcoFlags) : List String :=
  ecoIssues1 f ++
    (if 500 < f.lineCountN then
      ["Extremely large file detected (over 500 lines)"] else [])

/-- Suggestions after the large-file rule. -/
def ecoSuggestions2 (f : EcoFlags) : List String :=
  ecoSuggestions1 f ++
    (if 500 < f.lineCountN then
      ["Break down large files into smaller, more focused modules"] else [])

/-- The computed score entering the clamp. -/
def ecoScore3 (f : EcoFlags) : ℤ :=
  ecoScore2 f - (if 500 < f.lineCountN then 5 else 0)

/-- `ecoScore = Math.max(35, Math.min(95, ecoScore))` (line 1614). -/
def ecoClamped (f : EcoFlags) : ℤ := max 35 (min 95 (ecoScore3 f))

/-- Language-appropriate generic suggestion when none were produced
(lines 1617–1643). -/
def ecoGenericSuggestion (language : String) : String :=
  if language = "JavaScript/TypeScript" then
    "Use modern JS features like array methods, async/await, and avoid jQuery DOM manipulation"
  else if language = "Python" then
    "Follow PEP 8 style guide and use list comprehensions, generators, and context managers"
  else if language = "Java" then
    "Use Stream API, try-with-resources, and follow effective Java patterns"
  else if language = "C/C++" then
    "Use RAII pattern, smart pointers, and prefer std algorithms over raw loops"
  else if language = "Rust" then
    "Leverage Rust ownership system and avoid unnecessary memory allocations"
  else "Follow language-specific best practices for performance optimization"

structure EcoDetails where
  codeSize : Nat
  lineCount : Nat
  loopCount : Nat
  issueCount : Nat
  language : String
  redundancies : Nat
  aiIntegration : Bool
  deriving DecidableEq

structure EcoReport where
  ecoScore : ℤ
  issues : List String
  suggestions : List String
  details : EcoDetails
  deriving DecidableEq

/-- `localEcoAnalysis`: clamp, then the fallback suggestions, then the
no-issue fallback with its +5 bonus (applied after the clamp), then the
`details` record. -/
def localEcoAnalysis (f : EcoFlags) : EcoReport :=
  let issues := ecoIssues2 f
  let suggestions := ecoSuggestions2 f
  let score := ecoClamped f
  let suggestions :=
    if suggestions.isEmpty then
      suggestions ++ [ecoGenericSuggestion f.language]
    else suggestions
  let finalIssues :=
    if issues.isEmpty then issues ++ ["No obvious efficiency issues detected"]
    else issues
  let score := if issues.isEmpty then score + 5 else score
  ⟨score, finalIssues, suggestions,
    ⟨f.codeLength, f.lineCountN, f.loopMatches, finalIssues.length, f.language,
      f.redundancyCount, f.hasAI⟩⟩

/-! ## The embedding generator (`generateTextEmbedding`, lines 1680–1806)

Dimensions 0–20 are deterministic rational statistics of the text; dimensions
21–31 are `(Math.random() * 2 - 1) * 0.1`, modelled by an arbitrary sequence
`rnd : Nat → ℚ` of `Math.random()` draws.  The final vector is the raw one
divided by its L2 norm (`Math.sqrt`), with `magnitude || 1` guarding zero. -/

/-- `array.reduce((sum, val) => sum + val * val, 0)` over `ℚ`. -/
def sumSqQ (l : List ℚ) : ℚ := l.foldl (fun s v => s + v * v) 0

/-- `array.reduce((sum, val) => sum + val * val, 0)` over `ℝ`. -/
def sumSqR (l : List ℝ) : ℝ := l.foldl (fun s v => s + v * v) 0

/-- `normalizeValue` (lines 1820–1822): `2 * ((value - min) / (max - min || 1)) - 1`. -/
def normalizeValue (v vmin vmax : ℚ) : ℚ :=
  2 * ((v - vmin) / (if vmax - vmin = 0 then 1 else vmax - vmin)) - 1

/-- Dimension 15: `function\s*\([^)]*\)\s*{|const |let |var |=>`. -/
def jsSignature (t : List Char) : Bool :=
  containsPat [litp "function", Pat.star isWsChar, litp "(",
    Pat.star (fun c => c ≠ ')'), litp ")", Pat.star isWsChar, litp "\x7b"] t ||
  anyIn t ["const ", "let ", "var ", "=>"]

/-- Dimension 16: `def\s+\w+\s*\([^)]*\):|import\s+\w+|class\s+\w+:`. -/
def pySignature (t : List Char) : Bool :=
  containsPat [litp "def", Pat.one isWsChar, Pat.star isWsChar,
    Pat.one isWordChar, Pat.star isWordChar, Pat.star isWsChar, litp "(",
    Pat.star (fun c => c ≠ ')'), litp "):"] t ||
  containsPat [litp "import", Pat.one isWsChar, Pat.star isWsChar,
    Pat.one isWordChar] t ||
  containsPat [litp "class", Pat.one isWsChar, Pat.star isWsChar,
    Pat.one isWordChar, Pat.star isWordChar, litp ":"] t

/-- Dimension 17: `public\s+\w+\s*\([^)]*\)\s*{|extends |implements |@Override`. -/
def javaSignature (t : List Char) : Bool :=
  containsPat [litp "public", Pat.one isWsChar, Pat.star isWsChar,
    Pat.one isWordChar, Pat.star isWordChar, Pat.star isWsChar, litp "(",
    Pat.star (fun c => c ≠ ')'), litp ")", Pat.star isWsChar, litp "\x7b"] t ||
  anyIn t ["extends ", "implements ", "@Override"]

/-- Dimension 18: `fn\s+\w+|impl|pub\s+struct|use\s+std|::\w+`. -/
def rustSignature (t : List Char) : Bool :=
  containsPat [litp "fn", Pat.one isWsChar, Pat.star isWsChar,
    Pat.one isWordChar] t ||
  containsStr t "impl".data ||
  containsPat [litp "pub", Pat.one isWsChar, Pat.star isWsChar, litp "struct"] t ||
  containsPat [litp "use", Pat.one isWsChar, Pat.star isWsChar, litp "std"] t ||
  containsPat [litp "::", Pat.one isWordChar] t

/-- Dimension 19: `#include\s*<|void\s+\w+\s*\(|int\s+\w+\s*=|std::|template\s*<`. -/
def cppSignature (t : List Char) : Bool :=
  containsPat [litp "#include", Pat.star isWsChar, litp "<"] t ||
  containsPat [litp "void", Pat.one isWsChar, Pat.star isWsChar,
    Pat.one isWordChar, Pat.star isWordChar, Pat.star isWsChar, litp "("] t ||
  containsPat [litp "int", Pat.one isWsChar, Pat.star isWsChar,
    Pat.one isWordChar, Pat.star isWordChar, Pat.star isWsChar, litp "="] t ||
  containsStr t "std::".data ||
  containsPat [litp "template", Pat.star isWsChar, litp "<"] t

/-- Dimension 20: `<!DOCTYPE html>|<html>|<div|<span|className=|<\/`. -/
def htmlSignature (t : List Char) : Bool :=
  anyIn t ["<!DOCTYPE html>", "<html>", "<div", "<span", "className=", "</"]

/-- Dimensions 0–14: the statistical features. -/
def statsEmbedding (t : List Char) : List ℚ :=
  let charCount := t.length
  let words := wordsOf t
  let wordCount := words.length
  let lineCount := (splitOnP (· = '\n') t).length
  let uppercaseCount := countP isUpperChar t
  let digitCount := countP isDigitChar t
  let specialCharCount := countP (fun c => !isWordChar c && !isWsChar c) t
  let wordLengthAvg : ℚ :=
    if 0 < wordCount then ((words.map List.length).sum : ℚ) / (wordCount : ℚ)
    else 0
  let sentenceSegs :=
    (splitOnP (fun c => c = '.' ∨ c = '!' ∨ c = '?') t).filter
      fun s => s.any fun c => !isWsChar c
  [ normalizeValue (charCount : ℚ) 0 10000,
    normalizeValue (wordCount : ℚ) 0 2000,
    normalizeValue (lineCount : ℚ) 0 500,
    normalizeValue ((uppercaseCount : ℚ) / (max charCount 1 : ℚ)) 0 1,
    normalizeValue ((digitCount : ℚ) / (max charCount 1 : ℚ)) 0 1,
    normalizeValue ((specialCharCount : ℚ) / (max charCount 1 : ℚ)) 0 1,
    normalizeValue wordLengthAvg 1 20,
    normalizeValue ((sentenceSegs.length : ℚ) / (max lineCount 1 : ℚ)) 0 10,
    normalizeValue ((countP (fun c => c = '{' ∨ c = '}') t : ℚ) /
      (if lineCount = 0 then 1 else (lineCount : ℚ))) 0 2,
    normalizeValue ((countP (fun c => c = '(' ∨ c = ')' ∨ c = ';') t : ℚ) /
      (if lineCount = 0 then 1 else (lineCount : ℚ))) 0 5,
    normalizeValue ((countP (fun c => c = '.' ∨ c = '!' ∨ c = '?') t : ℚ) /
      (if wordCount = 0 then 1 else (wordCount : ℚ))) 0 10,
    normalizeValue ((wsRunCount t : ℚ) /
      (if charCount = 0 then 1 else (charCount : ℚ))) 0 5,
    normalizeValue ((countP isLowerChar t : ℚ) /
      (if charCount = 0 then 1 else (charCount : ℚ))) 0 1,
    normalizeValue ((countP isUpperChar t : ℚ) /
      (if charCount = 0 then 1 else (charCount : ℚ))) 0 1,
    normalizeValue ((countP isDigitChar t : ℚ) /
      (if charCount = 0 then 1 else (charCount : ℚ))) 0 1 ]

/-- Dimensions 15–20: the six language-signature indicators, +0.9 on a match
and −0.5 otherwise. -/
def signatureEmbedding (t : List Char) : List ℚ :=
  [ (if jsSignature t then (9 : ℚ)/10 else -(1/2)),
    (if pySignature t then (9 : ℚ)/10 else -(1/2)),
    (if javaSignature t then (9 : ℚ)/10 else -(1/2)),
    (if rustSignature t then (9 : ℚ)/10 else -(1/2)),
    (if cppSignature t then (9 : ℚ)/10 else -(1/2)),
    (if htmlSignature t then (9 : ℚ)/10 else -(1/2)) ]

/-- Dimensions 21–31: `(Math.random() * 2 - 1) * 0.1`, with `rnd k` the draw
used for dimension `21 + k`. -/
def noiseEmbedding (rnd : Nat → ℚ) : List ℚ :=
  (List.range 11).map fun k => (rnd k * 2 - 1) * (1/10)

/-- The 32-dimensional raw embedding before normalization. -/
def rawTextEmbedding (t : List Char) (rnd : Nat → ℚ) : List ℚ :=
  statsEmbedding t ++ signatureEmbedding t ++ noiseEmbedding rnd

/-- The raw embedding as a real vector. -/
noncomputable def rawRealEmbedding (t : List Char) (rnd : Nat → ℚ) : List ℝ :=
  (rawTextEmbedding t rnd).map fun q : ℚ => (q : ℝ)

/-- `generateTextEmbedding`: divide the raw vector by `magnitude || 1`. -/
noncomputable def generateTextEmbedding (t : List Char) (rnd : Nat → ℚ) :
    List ℝ :=
  let e := rawRealEmbedding t rnd
  let magnitude := Real.sqrt (sumSqR e)
  e.map fun val => val / (if magnitude = 0 then 1 else magnitude)

/-! ## The vector store (`VectorStore`, security-analyzer lines 413–503)

`search` scores every stored file against the query embedding, sorts by
descending score with JavaScript `Array.prototype.sort` (required stable
since ES2019; any stable sort computes the same list, modelled here by a
stable insertion sort), and takes the first `limit` results. -/

structure VFile where
  path : String
  content : String
  embedding : Option (List ℝ)

structure SearchResult where
  path : String
  content : String
  score : ℝ

/-- `calculateCosineSimilarity` (lines 481–502).  The source accumulates the
dot product and the two squared magnitudes in one loop over the indices;
with equal lengths this is the zip below, and `sumSqR` of each vector. -/
noncomputable def calculateCosineSimilarity (vec1 vec2 : List ℝ) : ℝ :=
  if vec1.length ≠ vec2.length then 0
  else
    let dotProduct := ((vec1.zip vec2).map fun p => p.1 * p.2).sum
    let mag1 := Real.sqrt (sumSqR vec1)
    let mag2 := Real.sqrt (sumSqR vec2)
    if mag1 * mag2 = 0 then 0 else dotProduct / (mag1 * mag2)

/-- Stable insertion (later elements go after score ties), realising the
comparator `(a, b) => b.score - a.score`. -/
noncomputable def insertByScore (x : SearchResult) :
    List SearchResult → List SearchResult
  | [] => [x]
  | y :: ys =>
    if y.score ≤ x.score then x :: y :: ys else y :: insertByScore x ys

/-- The stable descending-score sort of `results.sort((a, b) => b.score - a.score)`. -/
noncomputable def sortByScoreDesc (l : List SearchResult) : List SearchResult :=
  l.foldr insertByScore []

/-- `this.files.map(file => ({path, content, score}))`, in insertion order. -/
noncomputable def scoredResults (queryEmbedding : List ℝ) (files : List VFile) :
    List SearchResult :=
  files.map fun file =>
    ⟨file.path, file.content,
      calculateCosineSimilarity queryEmbedding (file.embedding.getD [])⟩

/-- `VectorStore.search` given the query embedding. -/
noncomputable def vsSearch (queryEmbedding : List ℝ) (limit : Nat)
    (files : List VFile) : List SearchResult :=
  if files.isEmpty then []
  else (sortByScoreDesc (scoredResults queryEmbedding files)).take limit

/-- `VectorStore.search` on a query text (`rnd` supplies the noise draws of
the query embedding). -/
noncomputable def vsSearchText (query : List Char) (rnd : Nat → ℚ)
    (limit : Nat) (files : List VFile) : List SearchResult :=
  vsSearch (generateTextEmbedding query rnd) limit files

/-! ## Helper lemmas -/

/-- If every step of a fold satisfies `R` from its input, the scan trace is a
chain for `R`. -/
theorem chain'_scanl {α β : Type _} {R : α → α → Prop} {f : α → β → α}
    (h : ∀ b a, R b (f b a)) :
    ∀ (l : List β) (b : α), List.Chain' R (List.scanl f b l) := by
  intro l
  induction l with
  | nil => intro b; exact List.chain'_singleton b
  | cons x xs ih =>
    intro b
    rw [List.scanl]
    refine List.chain'_cons'.mpr ⟨?_, ih (f b x)⟩
    intro y hy
    have hh : (List.scanl f (f b x) xs).head? = some (f b x) := by
      cases xs <;> rfl
    rw [hh, Option.mem_some_iff] at hy
    rw [← hy]
    exact h b x

/-- The risk component of one detector block. -/
theorem secDetector_risk (i : Nat) (f : SecFlags) (st : SecState) :
    (secDetector i f st).risk = riskStep i f st.risk := by
  unfold secDetector riskStep
  by_cases h : secGuard i f <;> simp [h]

/-- The risk component of a full detector fold is the fold of the risk steps. -/
theorem foldl_secDetector_risk (f : SecFlags) :
    ∀ (order : List Nat) (st : SecState),
      (order.foldl (fun st i => secDetector i f st) st).risk =
        order.foldl (fun r i => riskStep i f r) st.risk := by
  intro order
  induction order with
  | nil => intro st; rfl
  | cons i is ih =>
    intro st
    rw [List.foldl_cons, List.foldl_cons, ih, secDetector_risk]

/-- The final risk level of the engine is the ordered run of the risk steps. -/
theorem localSecurityAnalysis_risk (f : SecFlags) :
    (localSecurityAnalysis f).riskLevel = riskRunOrder secOrder f .low :=
  foldl_secDetector_risk f secOrder ⟨[], [], .low⟩

/-- Every risk-level effect either raises the level or lands at `High` or
above. -/
theorem secEffect_mono (i : Nat) (r : Risk) :
    riskRank r ≤ riskRank (secEffect i r) ∨ 2 ≤ riskRank (secEffect i r) := by
  match i with
  | 0 | 1 | 3 | 5 | 6 | 9 | 10 | 11 | 14 | 15 | 16 | 18 | 19 | 20 | 21 | 23
  | 24 | 25 => cases r <;> decide
  | 2 | 4 | 7 | 8 | 12 | 13 | 17 | 22 => cases r <;> decide
  | n + 26 => left; exact Nat.le_refl _

/-- Every detector step either raises the level or lands at `High` or above. -/
theorem riskStep_mono (i : Nat) (f : SecFlags) (r : Risk) :
    riskRank r ≤ riskRank (riskStep i f r) ∨ 2 ≤ riskRank (riskStep i f r) := by
  unfold riskStep
  by_cases h : secGuard i f
  · simp only [h, if_true]; exact secEffect_mono i r
  · simp [h]

/-- A detector block with a false guard leaves the state unchanged. -/
theorem foldl_secDetector_id (f : SecFlags) (order : List Nat)
    (h : ∀ i ∈ order, secGuard i f = false) (st : SecState) :
    order.foldl (fun st i => secDetector i f st) st = st := by
  induction order generalizing st with
  | nil => rfl
  | cons i is ih =>
    rw [List.foldl_cons]
    rw [show secDetector i f st = st by
      simp [secDetector, h i (List.mem_cons_self i is)]]
    exact ih (fun j hj => h j (List.mem_cons_of_mem _ hj)) st

/-- A Medium-bump block is exactly `max(current, Medium)` guarded by its
pattern test. -/
theorem riskStep_medBump {i : Nat} (hi : i ∈ secMedBumpBlocks) (f : SecFlags)
    (r : Risk) : riskStep i f r = if secGuard i f then bumpMed r else r := by
  fin_cases hi <;> rfl

/-- Guarded Medium-bumps commute. -/
theorem medBump_comm (g1 g2 : Bool) (r : Risk) :
    (if g2 then bumpMed (if g1 then bumpMed r else r)
     else if g1 then bumpMed r else r) =
    (if g1 then bumpMed (if g2 then bumpMed r else r)
     else if g2 then bumpMed r else r) := by
  cases g1 <;> cases g2 <;> cases r <;> decide

/-- The fallback `if (xs.length === 0) xs.push(m)` always leaves a non-empty
list. -/
theorem ite_append_ne_nil (l : List String) (m : String) :
    (if l.isEmpty then l ++ [m] else l) ≠ [] := by
  cases l <;> simp

/-! ## Claim theorems: the security rule engine -/

/-- C1 counterexample.  On the input `"input password select"` the engine's
risk level reaches `Critical` (the sensitive-data detector escalates the
`Medium` set by the validation detector), and the SQL-injection detector then
overwrites it with `High`: the trace is not monotone, and the final risk level
(`High`) is not the maximum reached (`Critical`).  This refutes both halves of
the claim. -/
theorem riskLevel_not_monotone_counterexample :
    ¬ List.Chain' (fun a b => riskRank a ≤ riskRank b)
        (riskTraceText "input password select") ∧
    (localSecurityAnalysisText "input password select").riskLevel ≠
      riskMaxOf (riskTraceText "input password select") := by
  constructor
  · have h : riskTraceText "input password select" =
        [.low, .low, .low, .low, .medium, .critical, .critical, .critical,
         .high, .high, .high, .high, .high, .high, .high, .high, .high, .high,
         .high, .high, .high, .high, .high, .high, .high, .high, .high] := by
      decide
    rw [h]
    simp [List.chain'_cons, riskRank]
  · decide

/-- C1 (amended).  Detectors do not only raise the level: the forced detectors
(SQL injection, XSS, unsafe deserialization) overwrite even a `Critical` level
with `High`.  What holds is: every step of the risk trace either raises the
level or lands at `High` or above, and the final `riskLevel` is the result of
the ordered run of the detector blocks (not the maximum of the trace). -/
theorem riskLevel_monotone_or_forced (s : String) :
    List.Chain' (fun a b => riskRank a ≤ riskRank b ∨ 2 ≤ riskRank b)
      (riskTraceText s) ∧
    (localSecurityAnalysisText s).riskLevel =
      riskRunOrder secOrder (secFlagsOfText s.data) .low := by
  constructor
  · exact chain'_scanl
      (fun r i => riskStep_mono i (secFlagsOfText s.data) r) secOrder .low
  · exact localSecurityAnalysis_risk _

/-- C3 counterexample.  Swapping the SQL-injection detector (which forces
`High`) with the command-injection detector (which forces `Critical`) changes
the final risk level of `"select exec(input"` from `Critical` to `High`:
detector order is not irrelevant. -/
theorem detectorOrder_matters_counterexample :
    List.Perm secOrder
      [0, 1, 2, 3, 4, 5, 6, 12, 8, 9, 10, 11, 7, 13, 14, 15, 16, 17, 18, 19,
       20, 21, 22, 23, 24, 25] ∧
    riskRunOrder
        [0, 1, 2, 3, 4, 5, 6, 12, 8, 9, 10, 11, 7, 13, 14, 15, 16, 17, 18, 19,
         20, 21, 22, 23, 24, 25]
        (secFlagsOfText "select exec(input".data) .low ≠
      riskRunOrder secOrder (secFlagsOfText "select exec(input".data) .low := by
  exact ⟨by decide, by decide⟩

/-- C3 (amended).  The blocks whose update is `max(current, Medium)` do
combine by a commutative operation: running them in any order yields the same
risk level from any start level.  The escalating/forced blocks (2, 4, 7, 8,
12, 13, 17, 22) are excluded — reordering those can change the result, as the
counterexample shows. -/
theorem medBumpDetectors_commute (f : SecFlags) (order : List Nat)
    (hp : List.Perm secMedBumpBlocks order) (r : Risk) :
    riskRunOrder order f r = riskRunOrder secMedBumpBlocks f r := by
  unfold riskRunOrder
  refine (List.Perm.foldl_eq' hp ?_ r).symm
  intro x hx y hy z
  rw [riskStep_medBump hx, riskStep_medBump hy, riskStep_medBump hy f,
    riskStep_medBump hx f]
  exact medBump_comm (secGuard x f) (secGuard y f) z

/-- Witness for the amended C3 at a concrete input and permutation. -/
theorem medBumpDetectors_commute_witness :
    List.Perm secMedBumpBlocks secMedBumpBlocks.reverse ∧
    riskRunOrder secMedBumpBlocks.reverse (secFlagsOfText "api/x".data) .low =
      riskRunOrder secMedBumpBlocks (secFlagsOfText "api/x".data) .low :=
  ⟨by decide,
    medBumpDetectors_commute (secFlagsOfText "api/x".data)
      secMedBumpBlocks.reverse (by decide) .low⟩

/-- C5.  If no detector block fires, the engine returns `Low` with exactly the
neutral threat and the generic recommendation; and on every input whatsoever
the returned threat and recommendation lists are non-empty. -/
theorem noFindings_fallback (s : String) :
    (secNoDetectorFires (secFlagsOfText s.data) = true →
      (localSecurityAnalysisText s).riskLevel = Risk.low ∧
      (localSecurityAnalysisText s).threats = [msgNoThreats] ∧
      (localSecurityAnalysisText s).recommendations = [msgGenericRec]) ∧
    (localSecurityAnalysisText s).threats ≠ [] ∧
    (localSecurityAnalysisText s).recommendations ≠ [] := by
  constructor
  · intro hnd
    have hall : ∀ i ∈ secOrder, secGuard i (secFlagsOfText s.data) = false := by
      intro i hi
      have := List.all_eq_true.mp hnd i hi
      simpa using this
    have hst := foldl_secDetector_id (secFlagsOfText s.data) secOrder hall
      ⟨[], [], .low⟩
    refine ⟨?_, ?_, ?_⟩ <;>
      simp [localSecurityAnalysisText, localSecurityAnalysis, hst]
  · constructor
    all_goals
      unfold localSecurityAnalysisText localSecurityAnalysis
      dsimp only
      exact ite_append_ne_nil _ _

/-- Witness for C5 on the pattern-free input `"hello"`. -/
theorem noFindings_fallback_witness :
    secNoDetectorFires (secFlagsOfText "hello".data) = true ∧
    (localSecurityAnalysisText "hello").riskLevel = Risk.low ∧
    (localSecurityAnalysisText "hello").threats = [msgNoThreats] ∧
    (localSecurityAnalysisText "hello").recommendations = [msgGenericRec] :=
  ⟨by decide, (noFindings_fallback "hello").1 (by decide)⟩

/-- C6.  The confidence level is exactly 0.6, plus 0.1 when a language was
detected, minus 0.2 for inputs shorter than 100 characters, plus 0.1 for
inputs longer than 1000 characters — the two length adjustments are mutually
exclusive, so the engine's `else if` equals the additive formula, and no
clamping is applied. -/
theorem confidence_formula (s : String) :
    (localSecurityAnalysisText s).confidenceLevel =
      3/5 + (if secDetectLanguage (lowerStr s.data) ≠ "unknown" then 1/10 else 0)
          + (if s.data.length < 100 then -(1/5) else 0)
          + (if s.data.length > 1000 then 1/10 else 0) := by
  show secConfidence (secFlagsOfText s.data) = _
  unfold secConfidence secFlagsOfText
  dsimp only
  split_ifs <;> first | omega | norm_num

/-! ## Claim theorems: the eco rule engine and language tags -/

/-- The rule-phase score never exceeds 88: the base score is at most 75 and
the only positive adjustments are +5 (AI caching), +3 (local model) and
+5 (Rust memory safety). -/
theorem ecoScore1_le (f : EcoFlags) : ecoScore1 f ≤ 88 := by
  have hbase : ecoBaseScore f.language ≤ 75 := by
    unfold ecoBaseScore; split_ifs <;> omega
  have h1 : 0 ≤ ecoRedundancyDeduct f := by
    unfold ecoRedundancyDeduct
    split_ifs with h
    · exact le_min (by norm_num) (by positivity)
    · omega
  have h2 : 0 ≤ ecoDupDeduct f := by
    unfold ecoDupDeduct; split_ifs <;> positivity
  have h3 : ecoAiAdjust1 f ≤ 5 := by
    unfold ecoAiAdjust1; split_ifs <;> omega
  have h4 : ecoAiAdjust2 f ≤ 3 := by
    unfold ecoAiAdjust2; split_ifs <;> omega
  have h5 : 0 ≤ ecoCryptoDeduct f := by
    unfold ecoCryptoDeduct; split_ifs <;> omega
  have h6 : 0 ≤ ecoMediaDeduct f := by
    unfold ecoMediaDeduct; split_ifs <;> omega
  have h7 : ecoLangAdjust f ≤ 5 := by
    unfold ecoLangAdjust; split_ifs <;> omega
  unfold ecoScore1
  linarith

/-- The computed (pre-clamp) score never exceeds 88: the post-phase steps only
deduct. -/
theorem ecoScore3_le (f : EcoFlags) : ecoScore3 f ≤ 88 := by
  have h0 : 0 ≤ min 20 (((ecoIssues1 f).length : ℤ) * 5) :=
    le_min (by norm_num) (by positivity)
  have h1 : 0 ≤ (if 0 < f.nestedLoopCount then
      min 15 ((f.nestedLoopCount : ℤ) * 5) else 0) := by
    split_ifs with h
    · exact le_min (by norm_num) (by positivity)
    · omega
  have h2 : (0:ℤ) ≤ (if 5000 < f.codeLength then 3 else 0) := by
    split_ifs <;> omega
  have h3 : (0:ℤ) ≤ (if 10000 < f.codeLength then 5 else 0) := by
    split_ifs <;> omega
  have h4 : (0:ℤ) ≤ (if 500 < f.lineCountN then 5 else 0) := by
    split_ifs <;> omega
  have h5 := ecoScore1_le f
  unfold ecoScore3 ecoScore2
  linarith

/-- C2.  The returned eco score always lies in [35, 95]; it equals
`max(35, min(95, computed score))` plus a flat +5 bonus applied after the
clamp exactly when no issues were found.  (The bonus cannot push the score
past 95: with no positive-issue deductions the computed score is at most 88.) -/
theorem ecoScore_in_range (f : EcoFlags) :
    35 ≤ (localEcoAnalysis f).ecoScore ∧ (localEcoAnalysis f).ecoScore ≤ 95 ∧
    (localEcoAnalysis f).ecoScore =
      max 35 (min 95 (ecoScore3 f)) +
        (if (ecoIssues2 f).isEmpty then 5 else 0) := by
  have hsc : (localEcoAnalysis f).ecoScore =
      max 35 (min 95 (ecoScore3 f)) +
        (if (ecoIssues2 f).isEmpty then 5 else 0) := by
    unfold localEcoAnalysis ecoClamped
    dsimp only
    by_cases h : (ecoIssues2 f).isEmpty <;> simp [h]
  have hlow : (35:ℤ) ≤ max 35 (min 95 (ecoScore3 f)) := le_max_left _ _
  have hhigh : max 35 (min 95 (ecoScore3 f)) ≤ 88 :=
    max_le (by norm_num) (le_trans (min_le_right _ _) (ecoScore3_le f))
  have hb0 : (0:ℤ) ≤ (if (ecoIssues2 f).isEmpty then (5:ℤ) else 0) := by
    split_ifs <;> omega
  have hb5 : (if (ecoIssues2 f).isEmpty then (5:ℤ) else 0) ≤ 5 := by
    split_ifs <;> omega
  refine ⟨?_, ?_, hsc⟩ <;> rw [hsc]
  · linarith
  · linarith

/-- C4 counterexample.  On `"def f import x const y"` the security engine
detects `python` (it tests python before javascript) while the eco engine
detects `JavaScript/TypeScript` (it tests javascript before python, with an
additional `var` pattern): the two engines do not consume one shared
language tag. -/
theorem languageTag_disagrees_counterexample :
    secDetectLanguage (lowerStr "def f import x const y".data) = "python" ∧
    ecoDetectLanguage (lowerStr "def f import x const y".data) =
      "JavaScript/TypeScript" ∧
    secTagCanon (secDetectLanguage (lowerStr "def f import x const y".data)) ≠
      ecoTagCanon (ecoDetectLanguage (lowerStr "def f import x const y".data)) :=
  ⟨by decide, by decide, by decide⟩

set_option maxHeartbeats 1000000 in
/-- C4 (amended).  Each engine classifies into the same closed six-tag
enumeration, and the two classifications agree on `rust` and `java` (their
first two predicates are identical); but the tag is computed separately by
each engine and the remaining classifications can disagree, as the
counterexample shows. -/
theorem languageTag_partial_agreement (t : List Char) :
    (secDetectLanguage (lowerStr t) = "rust" ↔
      ecoDetectLanguage (lowerStr t) = "Rust") ∧
    (secDetectLanguage (lowerStr t) = "java" ↔
      ecoDetectLanguage (lowerStr t) = "Java") ∧
    secTagCanon (secDetectLanguage (lowerStr t)) ∈ languageTagEnum ∧
    ecoTagCanon (ecoDetectLanguage (lowerStr t)) ∈ languageTagEnum := by
  unfold secDetectLanguage ecoDetectLanguage secTagCanon ecoTagCanon
    languageTagEnum
  refine ⟨?_, ?_, ?_, ?_⟩ <;> split_ifs <;> simp_all

/-! ## Helper lemmas: sums of squares and the embedding -/

/-- Folding `sum + v * v` equals the initial value plus the sum of squares. -/
theorem foldl_addsq {α : Type _} [AddCommMonoid α] [Mul α]
    (l : List α) (a : α) :
    l.foldl (fun s v => s + v * v) a = a + (l.map fun v => v * v).sum := by
  induction l generalizing a with
  | nil => simp
  | cons x xs ih => simp [ih, add_assoc]

theorem sumSqQ_eq (l : List ℚ) : sumSqQ l = (l.map fun v => v * v).sum := by
  unfold sumSqQ; rw [foldl_addsq, zero_add]

theorem sumSqR_eq (l : List ℝ) : sumSqR l = (l.map fun v => v * v).sum := by
  unfold sumSqR; rw [foldl_addsq, zero_add]

theorem sumSqQ_append (a b : List ℚ) :
    sumSqQ (a ++ b) = sumSqQ a + sumSqQ b := by
  simp [sumSqQ_eq]

theorem sumSqQ_nonneg (l : List ℚ) : 0 ≤ sumSqQ l := by
  rw [sumSqQ_eq]
  refine List.sum_nonneg ?_
  intro y hy
  obtain ⟨v, _, rfl⟩ := List.mem_map.mp hy
  exact mul_self_nonneg v

theorem sumSqR_nonneg (l : List ℝ) : 0 ≤ sumSqR l := by
  rw [sumSqR_eq]
  refine List.sum_nonneg ?_
  intro y hy
  obtain ⟨v, _, rfl⟩ := List.mem_map.mp hy
  exact mul_self_nonneg v

/-- Sum of squares of the rational embedding, cast to the reals. -/
theorem sumSqR_cast (l : List ℚ) :
    sumSqR (l.map fun q : ℚ => (q : ℝ)) = ((sumSqQ l : ℚ) : ℝ) := by
  have gen : ∀ (l : List ℚ) (a : ℚ),
      (l.map fun q : ℚ => (q : ℝ)).foldl (fun s v => s + v * v) ((a : ℚ) : ℝ) =
        ((l.foldl (fun s v => s + v * v) a : ℚ) : ℝ) := by
    intro l
    induction l with
    | nil => intro a; rfl
    | cons x xs ih =>
      intro a
      simp only [List.map_cons, List.foldl_cons]
      rw [show ((a : ℚ) : ℝ) + (x : ℝ) * (x : ℝ) = ((a + x * x : ℚ) : ℝ) by
        push_cast; ring]
      exact ih (a + x * x)
  unfold sumSqR sumSqQ
  rw [show ((0 : ℝ)) = ((0 : ℚ) : ℝ) by norm_num]
  exact gen l 0

/-- Sum of squares after dividing every entry by `d`. -/
theorem sumSqR_map_div (l : List ℝ) (d : ℝ) :
    sumSqR (l.map fun v => v / d) = sumSqR l / (d * d) := by
  rw [sumSqR_eq, sumSqR_eq]
  induction l with
  | nil => simp
  | cons x xs ih =>
    simp only [List.map_cons, List.sum_cons, ih]
    rw [div_mul_div_comm, add_div]

/-- Each signature dimension squares to at least 1/4. -/
theorem signature_sq_ge (b : Bool) :
    (1 : ℚ)/4 ≤ (if b then (9 : ℚ)/10 else -(1/2)) *
      (if b then (9 : ℚ)/10 else -(1/2)) := by
  cases b <;> norm_num

/-- The six signature dimensions contribute at least 3/2 to the squared
magnitude. -/
theorem signatureEmbedding_sumSq (t : List Char) :
    3/2 ≤ sumSqQ (signatureEmbedding t) := by
  unfold signatureEmbedding
  rw [sumSqQ_eq]
  simp only [List.map_cons, List.map_nil, List.sum_cons, List.sum_nil]
  have k1 := signature_sq_ge (jsSignature t)
  have k2 := signature_sq_ge (pySignature t)
  have k3 := signature_sq_ge (javaSignature t)
  have k4 := signature_sq_ge (rustSignature t)
  have k5 := signature_sq_ge (cppSignature t)
  have k6 := signature_sq_ge (htmlSignature t)
  linarith

/-- The raw embedding never has zero magnitude: its squared magnitude is
bounded below by the signature dimensions. -/
theorem rawTextEmbedding_sumSq_pos (t : List Char) (rnd : Nat → ℚ) :
    0 < sumSqQ (rawTextEmbedding t rnd) := by
  unfold rawTextEmbedding
  rw [sumSqQ_append, sumSqQ_append]
  have h1 := sumSqQ_nonneg (statsEmbedding t)
  have h2 := signatureEmbedding_sumSq t
  have h3 := sumSqQ_nonneg (noiseEmbedding rnd)
  linarith

/-- The squared magnitude of the raw real embedding, positively. -/
theorem rawRealEmbedding_sumSq_pos (t : List Char) (rnd : Nat → ℚ) :
    0 < sumSqR (rawRealEmbedding t rnd) := by
  unfold rawRealEmbedding
  rw [sumSqR_cast]
  exact_mod_cast rawTextEmbedding_sumSq_pos t rnd

/-- The normalized embedding has squared magnitude exactly 1. -/
theorem generateTextEmbedding_sumSq (t : List Char) (rnd : Nat → ℚ) :
    sumSqR (generateTextEmbedding t rnd) = 1 := by
  have hS := rawRealEmbedding_sumSq_pos t rnd
  have hmag : Real.sqrt (sumSqR (rawRealEmbedding t rnd)) ≠ 0 :=
    ne_of_gt (Real.sqrt_pos.mpr hS)
  unfold generateTextEmbedding
  dsimp only
  simp only [if_neg hmag]
  rw [sumSqR_map_div, Real.mul_self_sqrt (le_of_lt hS)]
  exact div_self (ne_of_gt hS)

/-- The raw embedding has 32 entries. -/
theorem rawTextEmbedding_length (t : List Char) (rnd : Nat → ℚ) :
    (rawTextEmbedding t rnd).length = 32 := by
  unfold rawTextEmbedding statsEmbedding signatureEmbedding noiseEmbedding
  simp

/-! ## Claim theorems: the embedding generator -/

/-- C7.  For every text and every noise draw, the returned embedding has
exactly 32 entries, and whenever the magnitude of the unnormalized vector is
non-zero (the documented guard case), the L2 norm of the result is exactly 1
(in the real-number model; "up to floating-point tolerance" in the source). -/
theorem embedding_unit_norm (t : List Char) (rnd : Nat → ℚ) :
    (generateTextEmbedding t rnd).length = 32 ∧
    (Real.sqrt (sumSqR (rawRealEmbedding t rnd)) ≠ 0 →
      Real.sqrt (sumSqR (generateTextEmbedding t rnd)) = 1) := by
  constructor
  · show ((rawRealEmbedding t rnd).map _).length = 32
    rw [List.length_map]
    show ((rawTextEmbedding t rnd).map _).length = 32
    rw [List.length_map]
    exact rawTextEmbedding_length t rnd
  · intro _
    rw [generateTextEmbedding_sumSq, Real.sqrt_one]

/-- Witness for C7 at the input `"a"` with all noise draws 0. -/
theorem embedding_unit_norm_witness :
    Real.sqrt (sumSqR (rawRealEmbedding "a".data fun _ => 0)) ≠ 0 ∧
    Real.sqrt (sumSqR (generateTextEmbedding "a".data fun _ => 0)) = 1 := by
  have h : Real.sqrt (sumSqR (rawRealEmbedding "a".data fun _ => 0)) ≠ 0 :=
    ne_of_gt (Real.sqrt_pos.mpr (rawRealEmbedding_sumSq_pos "a".data fun _ => 0))
  exact ⟨h, (embedding_unit_norm "a".data fun _ => 0).2 h⟩

/-- C10.  The zero-magnitude guard of the embedding generator is unreachable:
for every text and every noise value, each signature dimension (15–20) is
0.9 or −0.5, the squared magnitude of the unnormalized vector is strictly
positive, and the returned embedding has unit norm with no excluded case. -/
theorem embedding_zero_guard_unreachable (t : List Char) (rnd : Nat → ℚ) :
    0 < sumSqQ (rawTextEmbedding t rnd) ∧
    (∀ k : Fin 6, (rawTextEmbedding t rnd)[(15 + k.val)]? =
        some ((9 : ℚ)/10) ∨
      (rawTextEmbedding t rnd)[(15 + k.val)]? = some (-(1/2))) ∧
    Real.sqrt (sumSqR (generateTextEmbedding t rnd)) = 1 := by
  refine ⟨rawTextEmbedding_sumSq_pos t rnd, ?_, ?_⟩
  · intro k
    have hlen : (statsEmbedding t).length = 15 := by
      unfold statsEmbedding; simp
    have hsig : ∀ j : Nat, j < 6 →
        ((signatureEmbedding t ++ noiseEmbedding rnd)[j]? =
            some ((9 : ℚ)/10) ∨
          (signatureEmbedding t ++ noiseEmbedding rnd)[j]? =
            some (-(1/2))) := by
      intro j hj
      interval_cases j
      · by_cases h : jsSignature t <;> simp [signatureEmbedding, h]
      · by_cases h : pySignature t <;> simp [signatureEmbedding, h]
      · by_cases h : javaSignature t <;> simp [signatureEmbedding, h]
      · by_cases h : rustSignature t <;> simp [signatureEmbedding, h]
      · by_cases h : cppSignature t <;> simp [signatureEmbedding, h]
      · by_cases h : htmlSignature t <;> simp [signatureEmbedding, h]
    have hidx : (rawTextEmbedding t rnd)[(15 + k.val)]? =
        (signatureEmbedding t ++ noiseEmbedding rnd)[k.val]? := by
      unfold rawTextEmbedding
      rw [List.append_assoc, List.getElem?_append_right (by omega), hlen]
      congr 1
      omega
    rw [hidx]
    exact hsig k.val k.isLt
  · rw [generateTextEmbedding_sumSq, Real.sqrt_one]

/-! ## Helper lemmas: the vector store -/

/-- Membership in an insertion. -/
theorem insertByScore_mem (x z : SearchResult) (l : List SearchResult) :
    z ∈ insertByScore x l ↔ z = x ∨ z ∈ l := by
  induction l with
  | nil => simp [insertByScore]
  | cons y ys ih =>
    unfold insertByScore
    split_ifs <;> (simp [ih]; try tauto)

/-- Insertion preserves the descending-score ordering. -/
theorem insertByScore_sorted {x : SearchResult} {l : List SearchResult}
    (hl : List.Pairwise (fun a b => b.score ≤ a.score) l) :
    List.Pairwise (fun a b => b.score ≤ a.score) (insertByScore x l) := by
  induction l with
  | nil => simp [insertByScore]
  | cons y ys ih =>
    rw [List.pairwise_cons] at hl
    obtain ⟨hy, hys⟩ := hl
    unfold insertByScore
    split_ifs with h
    · refine List.Pairwise.cons ?_ (List.Pairwise.cons hy hys)
      intro z hz
      rcases List.mem_cons.mp hz with rfl | hz
      · exact h
      · exact le_trans (hy z hz) h
    · refine List.Pairwise.cons ?_ (ih hys)
      intro z hz
      rcases (insertByScore_mem x z ys).mp hz with rfl | hz
      · exact le_of_lt (lt_of_not_le h)
      · exact hy z hz

/-- The sort output is ordered by non-increasing score. -/
theorem sortByScoreDesc_sorted (l : List SearchResult) :
    List.Pairwise (fun a b => b.score ≤ a.score) (sortByScoreDesc l) := by
  induction l with
  | nil => exact List.Pairwise.nil
  | cons x xs ih => exact insertByScore_sorted ih

theorem insertByScore_length (x : SearchResult) (l : List SearchResult) :
    (insertByScore x l).length = l.length + 1 := by
  induction l with
  | nil => rfl
  | cons y ys ih =>
    unfold insertByScore
    split_ifs <;> simp [ih]

theorem sortByScoreDesc_length (l : List SearchResult) :
    (sortByScoreDesc l).length = l.length := by
  induction l with
  | nil => rfl
  | cons x xs ih =>
    show (insertByScore x (sortByScoreDesc xs)).length = xs.length + 1
    rw [insertByScore_length, ih]

/-- Inserting into a sorted list: the equal-score slice gains `x` at its
front when `x` has that score, else is unchanged (the stability core). -/
theorem filter_insertByScore (x : SearchResult) (l : List SearchResult) (s : ℝ)
    (hl : List.Pairwise (fun a b => b.score ≤ a.score) l) :
    (insertByScore x l).filter (fun r => decide (r.score = s)) =
      if x.score = s then
        x :: l.filter (fun r => decide (r.score = s))
      else l.filter (fun r => decide (r.score = s)) := by
  induction l with
  | nil => by_cases h : x.score = s <;> simp [insertByScore, h]
  | cons y ys ih =>
    rw [List.pairwise_cons] at hl
    obtain ⟨hy, hys⟩ := hl
    unfold insertByScore
    by_cases hcmp : y.score ≤ x.score
    · rw [if_pos hcmp]
      by_cases hx : x.score = s <;> simp [List.filter_cons, hx]
    · rw [if_neg hcmp]
      have hxy : x.score < y.score := lt_of_not_le hcmp
      by_cases hx : x.score = s
      · have hy' : ¬ (y.score = s) := by
          rw [← hx]
          exact ne_of_gt hxy
        simp [List.filter_cons, hx, hy', ih hys]
      · simp [List.filter_cons, hx, ih hys]

/-- Stability of the sort: each equal-score slice keeps insertion order. -/
theorem filter_sortByScoreDesc (l : List SearchResult) (s : ℝ) :
    (sortByScoreDesc l).filter (fun r => decide (r.score = s)) =
      l.filter (fun r => decide (r.score = s)) := by
  induction l with
  | nil => rfl
  | cons x xs ih =>
    show (insertByScore x (sortByScoreDesc xs)).filter _ = _
    rw [filter_insertByScore x _ s (sortByScoreDesc_sorted xs), List.filter_cons]
    by_cases hx : x.score = s <;> simp [hx, ih]

/-! ## Claim theorems: the vector store -/

/-- C8.  `search` returns at most `min(k, store size)` results, ordered by
non-increasing cosine-similarity score; ties keep insertion order (every
equal-score slice of the output is a prefix of the corresponding slice of the
insertion-order scored list); the empty store yields the empty list. -/
theorem search_results_properties (q : List Char) (rnd : Nat → ℚ) (k : Nat)
    (files : List VFile) :
    (vsSearchText q rnd k files).length ≤ min k files.length ∧
    List.Pairwise (fun a b => b.score ≤ a.score) (vsSearchText q rnd k files) ∧
    (∀ s : ℝ, ∃ rest,
      (scoredResults (generateTextEmbedding q rnd) files).filter
          (fun r => decide (r.score = s)) =
        (vsSearchText q rnd k files).filter (fun r => decide (r.score = s))
          ++ rest) ∧
    vsSearchText q rnd k [] = [] := by
  refine ⟨?_, ?_, ?_, ?_⟩
  · unfold vsSearchText vsSearch
    by_cases h : files.isEmpty
    · simp [h]
    · rw [if_neg h, List.length_take, sortByScoreDesc_length]
      unfold scoredResults
      rw [List.length_map]
  · unfold vsSearchText vsSearch
    by_cases h : files.isEmpty
    · simp [h]
    · rw [if_neg h]
      exact (sortByScoreDesc_sorted _).sublist (List.take_sublist _ _)
  · intro s
    unfold vsSearchText vsSearch
    by_cases h : files.isEmpty
    · obtain rfl : files = [] := by simpa [List.isEmpty_iff] using h
      exact ⟨[], by simp [scoredResults]⟩
    · rw [if_neg h]
      refine ⟨(List.drop k (sortByScoreDesc
        (scoredResults (generateTextEmbedding q rnd) files))).filter
          (fun r => decide (r.score = s)), ?_⟩
      rw [← filter_sortByScoreDesc _ s, ← List.filter_append,
        List.take_append_drop]
  · unfold vsSearchText vsSearch
    simp

/-- The dot product is symmetric. -/
theorem zip_mul_sum_comm (a b : List ℝ) :
    ((a.zip b).map fun p => p.1 * p.2).sum =
      ((b.zip a).map fun p => p.1 * p.2).sum := by
  induction a generalizing b with
  | nil => cases b <;> simp
  | cons x xs ih =>
    cases b with
    | nil => simp
    | cons y ys => simp [List.zip_cons_cons, ih, mul_comm]

/-- The dot product of a vector with itself is its squared magnitude. -/
theorem zip_self_sumSq (a : List ℝ) :
    ((a.zip a).map fun p => p.1 * p.2).sum = sumSqR a := by
  rw [sumSqR_eq]
  induction a with
  | nil => simp
  | cons x xs ih => simp [List.zip_cons_cons, ih]

/-- C9.  Cosine similarity is symmetric; on any vector of non-zero magnitude
it is exactly 1 against itself; and whenever the product of the two
magnitudes is zero the result is 0. -/
theorem cosine_similarity_properties (a b : List ℝ) :
    calculateCosineSimilarity a b = calculateCosineSimilarity b a ∧
    (0 < sumSqR a → calculateCosineSimilarity a a = 1) ∧
    (Real.sqrt (sumSqR a) * Real.sqrt (sumSqR b) = 0 →
      calculateCosineSimilarity a b = 0) := by
  refine ⟨?_, ?_, ?_⟩
  · unfold calculateCosineSimilarity
    by_cases h : a.length = b.length
    · rw [if_neg (show ¬(a.length ≠ b.length) from fun hc => hc h),
        if_neg (show ¬(b.length ≠ a.length) from fun hc => hc h.symm)]
      dsimp only
      rw [zip_mul_sum_comm,
        mul_comm (Real.sqrt (sumSqR a)) (Real.sqrt (sumSqR b))]
    · rw [if_pos h, if_pos (Ne.symm h)]
  · intro hS
    unfold calculateCosineSimilarity
    rw [if_neg (by omega)]
    dsimp only
    rw [zip_self_sumSq, Real.mul_self_sqrt (le_of_lt hS),
      if_neg (ne_of_gt hS)]
    exact div_self (ne_of_gt hS)
  · intro hz
    unfold calculateCosineSimilarity
    by_cases h : a.length = b.length
    · rw [if_neg (by omega)]
      dsimp only
      rw [if_pos hz]
    · rw [if_pos h]

/-- Witness for C9 at the vectors `[1]` (non-zero) and `[0]` (zero). -/
theorem cosine_similarity_properties_witness :
    0 < sumSqR [(1 : ℝ)] ∧
    calculateCosineSimilarity [(1 : ℝ)] [(1 : ℝ)] = 1 ∧
    Real.sqrt (sumSqR [(1 : ℝ)]) * Real.sqrt (sumSqR [(0 : ℝ)]) = 0 ∧
    calculateCosineSimilarity [(1 : ℝ)] [(0 : ℝ)] = 0 := by
  have h1 : (0 : ℝ) < sumSqR [(1 : ℝ)] := by norm_num [sumSqR]
  have h0 : sumSqR [(0 : ℝ)] = 0 := by norm_num [sumSqR]
  have hz : Real.sqrt (sumSqR [(1 : ℝ)]) * Real.sqrt (sumSqR [(0 : ℝ)]) = 0 := by
    rw [h0, Real.sqrt_zero, mul_zero]
  exact ⟨h1, (cosine_similarity_properties [(1 : ℝ)] [(1 : ℝ)]).2.1 h1, hz,
    (cosine_similarity_properties [(1 : ℝ)] [(0 : ℝ)]).2.2 hz⟩

end DevAssist
